import Mathlib

/-!
Verification of the fastify-shopinz backend specification.

The repository implements a person repository (`findPersonById`, `findPeople`,
`updatePerson`, `createPerson` over a relational `persons` table) and documents,
as design prose, a cart-reconciliation engine, an order-lifecycle controller and
a review-eligibility gate.  The person repository is embedded from the source
(`src/modules/persons/person.repository.ts`); the cart and order logic, which has
no implementation in the source tree, is modelled from the specification text.

The store is embedded as pure data: tables are lists of rows, carts are
association lists from owner key to line items, and each operation is a total
function returning the updated store together with its visible result and the
effects (collaborator calls) it performed.
-/

set_option autoImplicit false

namespace Shopinz

/-! Cart data model (modelled from the spec, §3 and §4.1) -/

/-- A cart line: product reference and positive quantity.  Modelled from the
spec: "CartItem — belongs to exactly one Cart.  Attributes: product reference,
quantity (positive integer)". -/
structure CartItem where
  productId : String
  quantity : Nat
  deriving DecidableEq, Repr

/-- The line items of one cart. -/
abbrev CartItems := List CartItem

/-- The persistent cart store.  Modelled from the spec: a cart is owned by
exactly one of an anonymous session (keyed by session token) or a user (keyed
by user id); the two ownership modes never mix, so the store is two keyed
collections. -/
structure Store where
  anonCarts : List (String × CartItems)
  userCarts : List (String × CartItems)
  deriving DecidableEq, Repr

/-- First cart registered under key `k`, if any (optional lookup per the spec:
"`sessionToken` may reference zero or one anonymous cart"). -/
def lookupCart : List (String × CartItems) → String → Option CartItems
  | [], _ => none
  | c :: cs, k => if c.1 = k then some c.2 else lookupCart cs k

/-- Replace the cart registered under key `k`, or append one if absent. -/
def setCart : List (String × CartItems) → String → CartItems → List (String × CartItems)
  | [], k, v => [(k, v)]
  | c :: cs, k, v => if c.1 = k then (k, v) :: cs else c :: setCart cs k v

/-- Delete every cart registered under key `k`. -/
def removeCart : List (String × CartItems) → String → List (String × CartItems)
  | [], _ => []
  | c :: cs, k => if c.1 = k then removeCart cs k else c :: removeCart cs k

/-- Number of carts registered under key `k`. -/
def countKey (cs : List (String × CartItems)) (k : String) : Nat :=
  (cs.filter (fun c => c.1 = k)).length

/-- Total quantity the line items hold for product `pid`. -/
def qtyOf : CartItems → String → Nat
  | [], _ => 0
  | it :: its, pid => (if it.productId = pid then it.quantity else 0) + qtyOf its pid

/-- Whether the items contain a line for product `pid`. -/
def hasLine (items : CartItems) (pid : String) : Bool :=
  items.any (fun it => it.productId = pid)

/-- Merge one anonymous line into user items.  Modelled from the spec: "if the
user cart already contains a line for the same product, increase that line's
quantity by the anonymous line's quantity; otherwise insert the line into the
user cart". -/
def mergeLine : CartItems → CartItem → CartItems
  | [], a => [a]
  | it :: its, a =>
    if it.productId = a.productId then
      { it with quantity := it.quantity + a.quantity } :: its
    else
      it :: mergeLine its a

/-- Merge all anonymous items into the user items, line by line. -/
def mergeItems (uItems aItems : CartItems) : CartItems :=
  aItems.foldl mergeLine uItems

/-- Modelled from the spec: operation `reconcile(sessionToken, userId)` of the
Cart Reconciliation Engine, the state transformation of one successful
execution.  No anonymous cart: no-op, creating an empty user cart if absent.
Anonymous cart only: re-own its items to the user and delete the anonymous
record.  Both: merge line items into the user cart, then delete the anonymous
cart and its items. -/
def reconcilePure (st : Store) (tok uid : String) : Store :=
  match lookupCart st.anonCarts tok with
  | none =>
    match lookupCart st.userCarts uid with
    | none => { st with userCarts := setCart st.userCarts uid [] }
    | some _ => st
  | some aItems =>
    match lookupCart st.userCarts uid with
    | none =>
      { anonCarts := removeCart st.anonCarts tok
        userCarts := setCart st.userCarts uid aItems }
    | some uItems =>
      { anonCarts := removeCart st.anonCarts tok
        userCarts := setCart st.userCarts uid (mergeItems uItems aItems) }

/-- Reconciliation failures, from the spec's error taxonomy. -/
inductive CartError where
  | ConflictError
  | StorageError
  deriving DecidableEq, Repr

/-- How the single transactional scope of one reconcile execution ends:
a commit, a detected concurrent reconciliation, or a persistence failure. -/
inductive TxOutcome where
  | commit
  | conflict
  | storageFail
  deriving DecidableEq, Repr

/-- Store visible after the call, plus the surfaced error, if any. -/
structure ReconcileResult where
  store : Store
  error : Option CartError
  deriving DecidableEq, Repr

/-- Modelled from the spec: `reconcile(sessionToken, userId)` with its failure
modes.  The merge-plus-deletion sequence runs inside a single transactional
scope, so a `ConflictError` (concurrent reconciliation detected) or a
`StorageError` (persistence failure) leaves the store in its pre-merge state,
with no partial mutation visible to subsequent reads. -/
def reconcile (st : Store) (tok uid : String) (outcome : TxOutcome) : ReconcileResult :=
  match outcome with
  | .commit => ⟨reconcilePure st tok uid, none⟩
  | .conflict => ⟨st, some .ConflictError⟩
  | .storageFail => ⟨st, some .StorageError⟩

/-! Order lifecycle (modelled from the spec, §4.2) -/

/-- The fulfillment state machine's states. -/
inductive FulfillmentStatus where
  | PENDING
  | CONFIRMED
  | PROCESSING
  | SHIPPED
  | DELIVERED
  | CANCELLED
  | REFUNDED
  deriving DecidableEq, Repr

/-- The payment axis, independent of fulfillment. -/
inductive PaymentStatus where
  | UNPAID
  | PAID
  deriving DecidableEq, Repr

/-- An order row: owner, customer contact, and the two status axes. -/
structure Order where
  id : String
  userId : String
  contact : String
  payment : PaymentStatus
  fulfillment : FulfillmentStatus
  deriving DecidableEq, Repr

/-- Order lifecycle failures, from the spec's error taxonomy. -/
inductive OrderError where
  | InvalidTransitionError
  | AlreadyTerminalError
  | RefundFailedError
  deriving DecidableEq, Repr

/-- Modelled from the spec: `CANCELLED` and `REFUNDED` are terminal. -/
def isTerminal : FulfillmentStatus → Bool
  | .CANCELLED => true
  | .REFUNDED => true
  | _ => false

/-- Modelled from the spec: the immediate successor in the strictly ordered
forward chain PENDING → CONFIRMED → PROCESSING → SHIPPED → DELIVERED. -/
def forwardSuccessor : FulfillmentStatus → Option FulfillmentStatus
  | .PENDING => some .CONFIRMED
  | .CONFIRMED => some .PROCESSING
  | .PROCESSING => some .SHIPPED
  | .SHIPPED => some .DELIVERED
  | _ => none

/-- A notification-collaborator event: addressee, the event kind or reason
code, and the fulfillment status it reports. -/
structure NotificationEvent where
  contact : String
  reasonCode : String
  resultingStatus : FulfillmentStatus
  deriving DecidableEq, Repr

/-- Outcome of `advance`: order state after the call, surfaced error, and the
notification events triggered. -/
structure AdvanceOutcome where
  order : Order
  error : Option OrderError
  notifications : List NotificationEvent
  deriving DecidableEq, Repr

/-- Modelled from the spec: operation `advance(orderId, nextStatus)`.  Allowed
only when `nextStatus` is the immediate successor of the current status in the
forward chain; any other target fails with `InvalidTransitionError`.  On
success the new status is persisted, and the transition into `CONFIRMED`
triggers an "order confirmed" notification. -/
def advance (o : Order) (next : FulfillmentStatus) : AdvanceOutcome :=
  if forwardSuccessor o.fulfillment = some next then
    { order := { o with fulfillment := next }
      error := none
      notifications :=
        if next = .CONFIRMED then [⟨o.contact, "order_confirmed", next⟩] else [] }
  else
    { order := o, error := some .InvalidTransitionError, notifications := [] }

/-- Outcome of `reportIssue`: order state after the call, surfaced error,
number of payment-collaborator calls, and notification events triggered. -/
structure IssueOutcome where
  order : Order
  error : Option OrderError
  paymentCalls : Nat
  notifications : List NotificationEvent
  deriving DecidableEq, Repr

/-- Modelled from the spec: operation `reportIssue(orderId, reasonCode)`.
Fails with `AlreadyTerminalError` when the order is already `CANCELLED` or
`REFUNDED`, touching no collaborator.  Otherwise it branches on the payment
status: `PAID` calls the payment collaborator to reverse the charge — on
success the status becomes `REFUNDED`, on reversal failure the status is left
unchanged, `RefundFailedError` surfaces and no customer notification is sent;
`UNPAID` sets the status to `CANCELLED` with no payment call.  Each success
path sends exactly one notification carrying the reason code and the resulting
status to the order's customer contact.  `reverseOk` is whether the payment
collaborator's `reverseCharge` succeeds. -/
def reportIssue (o : Order) (reasonCode : String) (reverseOk : Bool) : IssueOutcome :=
  if isTerminal o.fulfillment then
    { order := o, error := some .AlreadyTerminalError, paymentCalls := 0, notifications := [] }
  else
    match o.payment with
    | .PAID =>
      if reverseOk then
        { order := { o with fulfillment := .REFUNDED }
          error := none
          paymentCalls := 1
          notifications := [⟨o.contact, reasonCode, .REFUNDED⟩] }
      else
        { order := o, error := some .RefundFailedError, paymentCalls := 1, notifications := [] }
    | .UNPAID =>
      { order := { o with fulfillment := .CANCELLED }
        error := none
        paymentCalls := 0
        notifications := [⟨o.contact, reasonCode, .CANCELLED⟩] }

/-! Review eligibility gate (modelled from the spec, §4.3) -/

/-- First order with the given id, if any. -/
def findOrder : List Order → String → Option Order
  | [], _ => none
  | o :: os, oid => if o.id = oid then some o else findOrder os oid

/-- Review submission failure, from the spec's error taxonomy. -/
inductive ReviewError where
  | NotEligibleError
  deriving DecidableEq, Repr

/-- A stored review: the (user, order) reference and the approval flag, which
new reviews carry unset. -/
structure Review where
  userId : String
  orderId : String
  approved : Bool
  deriving DecidableEq, Repr

/-- Modelled from the spec: `canReview(userId, orderId)` returns true only if
the order belongs to `userId` and its fulfillment status equals `DELIVERED`;
otherwise false, with no side effects. -/
def canReview (orders : List Order) (userId orderId : String) : Bool :=
  match findOrder orders orderId with
  | none => false
  | some o => o.userId = userId && o.fulfillment = .DELIVERED

/-- Modelled from the spec: review submission is rejected with
`NotEligibleError` when the gate returns false; a created review is stored
unapproved. -/
def submitReview (orders : List Order) (userId orderId : String) :
    Except ReviewError Review :=
  if canReview orders userId orderId then
    .ok { userId := userId, orderId := orderId, approved := false }
  else
    .error .NotEligibleError

/-! Person repository (embedded from `person.repository.ts`) -/

/-- A row of the `persons` table (`PersonTable` in `shared/types`; the
timestamp columns are database-generated and irrelevant to the claims, so they
are carried as opaque strings). -/
structure Person where
  id : String
  name : String
  email : String
  role_id : String
  is_banned : Bool
  created_at : String
  updated_at : String
  deriving DecidableEq, Repr

/-- `findPersonById`: `select * from persons where id = ? executeTakeFirst` —
the first matching row, or none. -/
def findPersonById : List Person → String → Option Person
  | [], _ => none
  | p :: ps, i => if p.id = i then some p else findPersonById ps i

/-- The `UpdatePerson` patch: each updatable column optionally present. -/
structure UpdatePersonPatch where
  name : Option String := none
  email : Option String := none
  role_id : Option String := none
  is_banned : Option Bool := none
  deriving DecidableEq, Repr

/-- `update ... set` semantics of one row: present columns overwrite, absent
columns keep the stored value. -/
def applyPatch (u : UpdatePersonPatch) (p : Person) : Person :=
  { p with
    name := u.name.getD p.name
    email := u.email.getD p.email
    role_id := u.role_id.getD p.role_id
    is_banned := u.is_banned.getD p.is_banned }

/-- `updatePerson(id, changes)`: `update persons set ... where id = ?` with no
returning clause — every matching row is patched, and the function's return
value is always `undefined` (here `Unit`), whether or not a row matched. -/
def updatePerson (table : List Person) (i : String) (u : UpdatePersonPatch) :
    List Person × Unit :=
  (table.map (fun p => if p.id = i then applyPatch u p else p), ())

/-! Helper lemmas about the cart store -/

theorem lookupCart_setCart_self (cs : List (String × CartItems)) (k : String)
    (v : CartItems) : lookupCart (setCart cs k v) k = some v := by
  induction cs with
  | nil => simp [setCart, lookupCart]
  | cons c cs ih =>
    by_cases h : c.1 = k
    · simp [setCart, lookupCart, h]
    · simp [setCart, lookupCart, h, ih]

theorem lookupCart_removeCart_self (cs : List (String × CartItems)) (k : String) :
    lookupCart (removeCart cs k) k = none := by
  induction cs with
  | nil => simp [removeCart, lookupCart]
  | cons c cs ih =>
    by_cases h : c.1 = k
    · simp [removeCart, h, ih]
    · simp [removeCart, lookupCart, h, ih]

theorem countKey_setCart_self (cs : List (String × CartItems)) (k : String)
    (v : CartItems) : countKey (setCart cs k v) k = max (countKey cs k) 1 := by
  induction cs with
  | nil => simp [setCart, countKey]
  | cons c cs ih =>
    by_cases h : c.1 = k
    · simp [setCart, countKey, h, List.filter] at *
    · simp [setCart, countKey, h, List.filter] at *
      exact ih

theorem countKey_pos_of_lookup (cs : List (String × CartItems)) (k : String)
    (v : CartItems) (h : lookupCart cs k = some v) : 1 ≤ countKey cs k := by
  induction cs with
  | nil => simp [lookupCart] at h
  | cons c cs ih =>
    by_cases hk : c.1 = k
    · simp [countKey, List.filter, hk]
    · simp [lookupCart, hk] at h
      have := ih h
      simp [countKey, List.filter, hk] at *
      omega

theorem qtyOf_mergeLine (its : CartItems) (a : CartItem) (pid : String) :
    qtyOf (mergeLine its a) pid =
      qtyOf its pid + (if a.productId = pid then a.quantity else 0) := by
  induction its with
  | nil => simp [mergeLine, qtyOf]
  | cons it its ih =>
    by_cases h : it.productId = a.productId
    · by_cases hp : a.productId = pid
      · simp [mergeLine, qtyOf, h, hp]
        omega
      · have : it.productId = pid ↔ False := by
          constructor
          · intro hit
            exact hp (h ▸ hit)
          · intro hf
            exact hf.elim
        simp [mergeLine, qtyOf, h, hp, this]
    · simp [mergeLine, qtyOf, h, ih]
      omega

theorem qtyOf_mergeItems (uItems aItems : CartItems) (pid : String) :
    qtyOf (mergeItems uItems aItems) pid = qtyOf uItems pid + qtyOf aItems pid := by
  induction aItems generalizing uItems with
  | nil => simp [mergeItems, qtyOf]
  | cons a as ih =>
    simp only [mergeItems, List.foldl_cons] at *
    rw [ih, qtyOf_mergeLine]
    simp [qtyOf]
    omega

theorem reconcilePure_idem (st : Store) (tok uid : String) :
    reconcilePure (reconcilePure st tok uid) tok uid = reconcilePure st tok uid := by
  rcases h1 : lookupCart st.anonCarts tok with _ | aItems <;>
    rcases h2 : lookupCart st.userCarts uid with _ | uItems <;>
      simp [reconcilePure, h1, h2, lookupCart_setCart_self, lookupCart_removeCart_self]

/-! Claims about the Cart Reconciliation Engine -/

/-- C1: for every anonymous cart and user cart that both contain a line for
the same product, a successful reconcile produces exactly one cart addressable
by the user id whose quantity for that product is the sum of the two carts'
quantities for it, and afterwards no cart identified by the session token
exists. -/
theorem reconcile_merges_shared_product
    (st : Store) (tok uid pid : String) (aItems uItems : CartItems)
    (hA : lookupCart st.anonCarts tok = some aItems)
    (hU : lookupCart st.userCarts uid = some uItems)
    (hpa : hasLine aItems pid = true)
    (hpu : hasLine uItems pid = true)
    (hwf : countKey st.userCarts uid ≤ 1) :
    (reconcile st tok uid TxOutcome.commit).error = none ∧
    countKey (reconcile st tok uid TxOutcome.commit).store.userCarts uid = 1 ∧
    lookupCart (reconcile st tok uid TxOutcome.commit).store.anonCarts tok = none ∧
    ∃ items,
      lookupCart (reconcile st tok uid TxOutcome.commit).store.userCarts uid = some items ∧
      qtyOf items pid = qtyOf aItems pid + qtyOf uItems pid := by
  have h1 : countKey st.userCarts uid = 1 :=
    le_antisymm hwf (countKey_pos_of_lookup _ _ _ hU)
  refine ⟨rfl, ?_, ?_, ?_⟩
  · simp [reconcile, reconcilePure, hA, hU, countKey_setCart_self, h1]
  · simp [reconcile, reconcilePure, hA, hU, lookupCart_removeCart_self]
  · refine ⟨mergeItems uItems aItems, ?_, ?_⟩
    · simp [reconcile, reconcilePure, hA, hU, lookupCart_setCart_self]
    · rw [qtyOf_mergeItems]
      omega

/-- Witness for C1 at a concrete store: session cart with 2 of product p1,
user cart with 3 of p1; the merged user cart holds 5 of p1 and the session
cart is gone. -/
theorem reconcile_merges_shared_product_witness :
    (reconcile ⟨[("s1", [⟨"p1", 2⟩])], [("u1", [⟨"p1", 3⟩])]⟩ "s1" "u1"
        TxOutcome.commit).error = none ∧
    countKey (reconcile ⟨[("s1", [⟨"p1", 2⟩])], [("u1", [⟨"p1", 3⟩])]⟩ "s1" "u1"
        TxOutcome.commit).store.userCarts "u1" = 1 ∧
    lookupCart (reconcile ⟨[("s1", [⟨"p1", 2⟩])], [("u1", [⟨"p1", 3⟩])]⟩ "s1" "u1"
        TxOutcome.commit).store.anonCarts "s1" = none ∧
    ∃ items,
      lookupCart (reconcile ⟨[("s1", [⟨"p1", 2⟩])], [("u1", [⟨"p1", 3⟩])]⟩ "s1" "u1"
          TxOutcome.commit).store.userCarts "u1" = some items ∧
      qtyOf items "p1" = qtyOf [⟨"p1", 2⟩] "p1" + qtyOf [⟨"p1", 3⟩] "p1" :=
  reconcile_merges_shared_product _ "s1" "u1" "p1" [⟨"p1", 2⟩] [⟨"p1", 3⟩]
    (by decide) (by decide) (by decide) (by decide) (by decide)

/-- C4: every execution of reconcile either commits the full merge plus
deletion (the state transformation of `reconcilePure`), or fails with a
`ConflictError` or `StorageError` leaving the store exactly in its pre-merge
state. -/
theorem reconcile_atomicity (st : Store) (tok uid : String) (outcome : TxOutcome) :
    reconcile st tok uid outcome = ⟨reconcilePure st tok uid, none⟩ ∨
    ((reconcile st tok uid outcome).store = st ∧
      ((reconcile st tok uid outcome).error = some CartError.ConflictError ∨
       (reconcile st tok uid outcome).error = some CartError.StorageError)) := by
  cases outcome with
  | commit => exact Or.inl rfl
  | conflict => exact Or.inr ⟨rfl, Or.inl rfl⟩
  | storageFail => exact Or.inr ⟨rfl, Or.inr rfl⟩

/-- C6: when the session token references no anonymous cart, reconcile
succeeds without error; it leaves the store (hence the user cart) unchanged
when a user cart exists, and only adds an empty user cart when none does.
Consequently a committed reconcile is idempotent: running it twice in a row
with the same token and user equals running it once. -/
theorem reconcile_absent_token_noop
    (st : Store) (tok uid : String)
    (hA : lookupCart st.anonCarts tok = none) :
    (reconcile st tok uid TxOutcome.commit).error = none ∧
    (∀ uItems, lookupCart st.userCarts uid = some uItems →
      (reconcile st tok uid TxOutcome.commit).store = st) ∧
    (lookupCart st.userCarts uid = none →
      (reconcile st tok uid TxOutcome.commit).store =
        { st with userCarts := setCart st.userCarts uid [] }) ∧
    (∀ st' : Store,
      reconcile (reconcile st' tok uid TxOutcome.commit).store tok uid TxOutcome.commit =
        reconcile st' tok uid TxOutcome.commit) := by
  refine ⟨rfl, ?_, ?_, ?_⟩
  · intro uItems hU
    simp [reconcile, reconcilePure, hA, hU]
  · intro hU
    simp [reconcile, reconcilePure, hA, hU]
  · intro st'
    simp [reconcile, reconcilePure_idem]

/-- Witness for C6 at a concrete store: token s9 references no anonymous
cart, the user cart of u1 is untouched, and reconciling twice equals
reconciling once. -/
theorem reconcile_absent_token_noop_witness :
    (reconcile ⟨[("s1", [⟨"p1", 2⟩])], [("u1", [⟨"p1", 3⟩])]⟩ "s9" "u1"
        TxOutcome.commit).error = none ∧
    (∀ uItems,
      lookupCart (Store.mk [("s1", [⟨"p1", 2⟩])] [("u1", [⟨"p1", 3⟩])]).userCarts "u1" =
          some uItems →
      (reconcile ⟨[("s1", [⟨"p1", 2⟩])], [("u1", [⟨"p1", 3⟩])]⟩ "s9" "u1"
          TxOutcome.commit).store = ⟨[("s1", [⟨"p1", 2⟩])], [("u1", [⟨"p1", 3⟩])]⟩) ∧
    (lookupCart (Store.mk [("s1", [⟨"p1", 2⟩])] [("u1", [⟨"p1", 3⟩])]).userCarts "u1" =
        none →
      (reconcile ⟨[("s1", [⟨"p1", 2⟩])], [("u1", [⟨"p1", 3⟩])]⟩ "s9" "u1"
          TxOutcome.commit).store =
        { Store.mk [("s1", [⟨"p1", 2⟩])] [("u1", [⟨"p1", 3⟩])] with
            userCarts :=
              setCart (Store.mk [("s1", [⟨"p1", 2⟩])] [("u1", [⟨"p1", 3⟩])]).userCarts
                "u1" [] }) ∧
    (∀ st' : Store,
      reconcile (reconcile st' "s9" "u1" TxOutcome.commit).store "s9" "u1"
          TxOutcome.commit =
        reconcile st' "s9" "u1" TxOutcome.commit) :=
  reconcile_absent_token_noop ⟨[("s1", [⟨"p1", 2⟩])], [("u1", [⟨"p1", 3⟩])]⟩ "s9" "u1"
    (by decide)

/-! Claims about the Order Lifecycle Controller -/

/-- C2: on a `PAID`, non-terminal order whose charge reversal fails,
`reportIssue` leaves the fulfillment status unchanged, surfaces
`RefundFailedError`, and sends no customer notification. -/
theorem reportIssue_refund_failure
    (o : Order) (reasonCode : String)
    (hp : o.payment = PaymentStatus.PAID)
    (ht : isTerminal o.fulfillment = false) :
    (reportIssue o reasonCode false).order.fulfillment = o.fulfillment ∧
    (reportIssue o reasonCode false).error = some OrderError.RefundFailedError ∧
    (reportIssue o reasonCode false).notifications = [] := by
  simp [reportIssue, ht, hp]

/-- Witness for C2 at a concrete order: a PAID, PROCESSING order whose
reversal fails stays PROCESSING with a RefundFailedError and no
notification. -/
theorem reportIssue_refund_failure_witness :
    (reportIssue ⟨"o1", "u1", "c1", PaymentStatus.PAID, FulfillmentStatus.PROCESSING⟩
        "damaged" false).order.fulfillment =
      (Order.mk "o1" "u1" "c1" PaymentStatus.PAID FulfillmentStatus.PROCESSING).fulfillment ∧
    (reportIssue ⟨"o1", "u1", "c1", PaymentStatus.PAID, FulfillmentStatus.PROCESSING⟩
        "damaged" false).error = some OrderError.RefundFailedError ∧
    (reportIssue ⟨"o1", "u1", "c1", PaymentStatus.PAID, FulfillmentStatus.PROCESSING⟩
        "damaged" false).notifications = [] :=
  reportIssue_refund_failure _ "damaged" (by decide) (by decide)

/-- C3: `advance` succeeds exactly when the target is the immediate successor
of the current status in the forward chain PENDING, CONFIRMED, PROCESSING,
SHIPPED, DELIVERED; any other target fails with `InvalidTransitionError` and
leaves the order unchanged. -/
theorem advance_successor_only (o : Order) (next : FulfillmentStatus) :
    ((advance o next).error = none ↔ forwardSuccessor o.fulfillment = some next) ∧
    (forwardSuccessor o.fulfillment ≠ some next →
      (advance o next).error = some OrderError.InvalidTransitionError ∧
      (advance o next).order = o) := by
  by_cases h : forwardSuccessor o.fulfillment = some next
  · simp [advance, h]
  · simp [advance, h]

/-- Witness for C3 at a concrete order: advancing a PENDING order directly to
PROCESSING (skipping CONFIRMED) fails with InvalidTransitionError and keeps
the order unchanged. -/
theorem advance_successor_only_witness :
    ((advance ⟨"o1", "u1", "c1", PaymentStatus.UNPAID, FulfillmentStatus.PENDING⟩
        FulfillmentStatus.PROCESSING).error = none ↔
      forwardSuccessor
          (Order.mk "o1" "u1" "c1" PaymentStatus.UNPAID FulfillmentStatus.PENDING).fulfillment =
        some FulfillmentStatus.PROCESSING) ∧
    (forwardSuccessor
          (Order.mk "o1" "u1" "c1" PaymentStatus.UNPAID FulfillmentStatus.PENDING).fulfillment ≠
        some FulfillmentStatus.PROCESSING →
      (advance ⟨"o1", "u1", "c1", PaymentStatus.UNPAID, FulfillmentStatus.PENDING⟩
          FulfillmentStatus.PROCESSING).error = some OrderError.InvalidTransitionError ∧
      (advance ⟨"o1", "u1", "c1", PaymentStatus.UNPAID, FulfillmentStatus.PENDING⟩
          FulfillmentStatus.PROCESSING).order =
        ⟨"o1", "u1", "c1", PaymentStatus.UNPAID, FulfillmentStatus.PENDING⟩) :=
  advance_successor_only _ FulfillmentStatus.PROCESSING

/-- C5: on an order already `CANCELLED` or `REFUNDED`, `reportIssue` fails
with `AlreadyTerminalError`, performs zero payment calls and zero
notifications, and leaves the order unchanged; moreover, after any successful
`reportIssue`, a second call on the resulting order performs zero payment
calls and zero notifications. -/
theorem reportIssue_already_terminal
    (o : Order) (reasonCode reasonCode2 : String) (rok rok2 : Bool)
    (h : isTerminal o.fulfillment = true) :
    reportIssue o reasonCode rok =
      { order := o, error := some OrderError.AlreadyTerminalError,
        paymentCalls := 0, notifications := [] } ∧
    (∀ o' : Order, (reportIssue o' reasonCode rok).error = none →
      (reportIssue (reportIssue o' reasonCode rok).order reasonCode2 rok2).paymentCalls
          = 0 ∧
      (reportIssue (reportIssue o' reasonCode rok).order reasonCode2 rok2).notifications
          = []) := by
  constructor
  · simp [reportIssue, h]
  · intro o' he
    cases hf : o'.fulfillment <;> cases hp : o'.payment <;> cases rok <;>
      simp [reportIssue, isTerminal, hf, hp] at he ⊢

/-- Witness for C5 at a concrete order: a second reportIssue on a CANCELLED
order fails with AlreadyTerminalError and triggers no collaborator call. -/
theorem reportIssue_already_terminal_witness :
    reportIssue ⟨"o1", "u1", "c1", PaymentStatus.UNPAID, FulfillmentStatus.CANCELLED⟩
        "lost" true =
      { order := ⟨"o1", "u1", "c1", PaymentStatus.UNPAID, FulfillmentStatus.CANCELLED⟩,
        error := some OrderError.AlreadyTerminalError,
        paymentCalls := 0, notifications := [] } ∧
    (∀ o' : Order, (reportIssue o' "lost" true).error = none →
      (reportIssue (reportIssue o' "lost" true).order "lost2" false).paymentCalls = 0 ∧
      (reportIssue (reportIssue o' "lost" true).order "lost2" false).notifications = []) :=
  reportIssue_already_terminal _ "lost" "lost2" true false (by decide)

/-- C7: on a non-terminal `UNPAID` order, `reportIssue` sets the fulfillment
status to `CANCELLED`, makes no payment-collaborator call, and triggers
exactly one notification event carrying the reason code and the resulting
status, addressed to the order's customer contact. -/
theorem reportIssue_unpaid_cancellation
    (o : Order) (reasonCode : String) (rok : Bool)
    (hp : o.payment = PaymentStatus.UNPAID)
    (ht : isTerminal o.fulfillment = false) :
    reportIssue o reasonCode rok =
      { order := { o with fulfillment := FulfillmentStatus.CANCELLED },
        error := none, paymentCalls := 0,
        notifications := [⟨o.contact, reasonCode, FulfillmentStatus.CANCELLED⟩] } := by
  simp [reportIssue, ht, hp]

/-- Witness for C7 at a concrete order: an UNPAID, PENDING order is cancelled
with exactly one notification and no payment call. -/
theorem reportIssue_unpaid_cancellation_witness :
    reportIssue ⟨"o1", "u1", "c1", PaymentStatus.UNPAID, FulfillmentStatus.PENDING⟩
        "oos" true =
      { order := { Order.mk "o1" "u1" "c1" PaymentStatus.UNPAID FulfillmentStatus.PENDING
                     with fulfillment := FulfillmentStatus.CANCELLED },
        error := none, paymentCalls := 0,
        notifications :=
          [⟨(Order.mk "o1" "u1" "c1" PaymentStatus.UNPAID FulfillmentStatus.PENDING).contact,
            "oos", FulfillmentStatus.CANCELLED⟩] } :=
  reportIssue_unpaid_cancellation _ "oos" true (by decide) (by decide)

/-! Claim about the Review Eligibility Gate -/

/-- C8: `canReview` returns true exactly when the order exists, belongs to
the user, and its fulfillment status is `DELIVERED`; whenever it returns
false, review submission fails with `NotEligibleError`.  The gate is a pure
function of the store, so it has no side effects. -/
theorem canReview_delivered_owner_only (orders : List Order) (userId orderId : String) :
    (canReview orders userId orderId = true ↔
      ∃ o, findOrder orders orderId = some o ∧ o.userId = userId ∧
        o.fulfillment = FulfillmentStatus.DELIVERED) ∧
    (canReview orders userId orderId = false →
      submitReview orders userId orderId = Except.error ReviewError.NotEligibleError) := by
  constructor
  · cases hf : findOrder orders orderId with
    | none => simp [canReview, hf]
    | some o => simp [canReview, hf]
  · intro h
    simp [submitReview, h]

/-- Witness for C8 at a concrete store: a SHIPPED order is not reviewable and
submission fails with NotEligibleError. -/
theorem canReview_delivered_owner_only_witness :
    (canReview [⟨"o1", "u1", "c1", PaymentStatus.PAID, FulfillmentStatus.SHIPPED⟩]
        "u1" "o1" = true ↔
      ∃ o,
        findOrder [⟨"o1", "u1", "c1", PaymentStatus.PAID, FulfillmentStatus.SHIPPED⟩]
            "o1" = some o ∧
        o.userId = "u1" ∧ o.fulfillment = FulfillmentStatus.DELIVERED) ∧
    (canReview [⟨"o1", "u1", "c1", PaymentStatus.PAID, FulfillmentStatus.SHIPPED⟩]
        "u1" "o1" = false →
      submitReview [⟨"o1", "u1", "c1", PaymentStatus.PAID, FulfillmentStatus.SHIPPED⟩]
          "u1" "o1" = Except.error ReviewError.NotEligibleError) :=
  canReview_delivered_owner_only _ "u1" "o1"

/-! Claims about the person repository -/

/-- C9: `findPersonById` is an optional lookup: when no row carries the id it
returns none rather than failing, and when a row carries the id (ids being
unique, as enforced by the primary key) it returns that row. -/
theorem findPersonById_optional
    (table : List Person) (i : String)
    (hids : List.Pairwise (fun a b : Person => a.id ≠ b.id) table) :
    ((∀ p ∈ table, p.id ≠ i) → findPersonById table i = none) ∧
    (∀ p ∈ table, p.id = i → findPersonById table i = some p) := by
  induction table with
  | nil => simp [findPersonById]
  | cons q qs ih =>
    rcases List.pairwise_cons.mp hids with ⟨hq, hqs⟩
    obtain ⟨ih1, ih2⟩ := ih hqs
    constructor
    · intro hnone
      have hqid : q.id ≠ i := hnone q (List.mem_cons_self q qs)
      simp [findPersonById, hqid]
      exact ih1 (fun p hp => hnone p (List.mem_cons_of_mem q hp))
    · intro p hp hpid
      rcases List.mem_cons.mp hp with rfl | hpqs
      · simp [findPersonById, hpid]
      · have hqid : q.id ≠ i := fun hcon => (hq p hpqs) (hcon.trans hpid.symm)
        simp [findPersonById, hqid]
        exact ih2 p hpqs hpid

/-- Witness for C9 at a concrete table of one row: the lookup misses an
absent id and hits the present one. -/
theorem findPersonById_optional_witness :
    List.Pairwise (fun a b : Person => a.id ≠ b.id)
      [⟨"a1", "John Doe", "john@example.com", "r1", false, "t0", "t0"⟩] ∧
    ((∀ p ∈ [Person.mk "a1" "John Doe" "john@example.com" "r1" false "t0" "t0"],
        p.id ≠ "zz") →
      findPersonById [⟨"a1", "John Doe", "john@example.com", "r1", false, "t0", "t0"⟩]
          "zz" = none) ∧
    (∀ p ∈ [Person.mk "a1" "John Doe" "john@example.com" "r1" false "t0" "t0"],
      p.id = "zz" →
      findPersonById [⟨"a1", "John Doe", "john@example.com", "r1", false, "t0", "t0"⟩]
          "zz" = some p) :=
  ⟨by simp,
   findPersonById_optional
     [⟨"a1", "John Doe", "john@example.com", "r1", false, "t0", "t0"⟩] "zz" (by simp)⟩

/-- C10: `updatePerson` on an id matching no row completes without error,
returns no value, and leaves every row of the table unchanged; its return
value is the same (always unit, i.e. undefined) whether or not a row
matched, so the caller cannot tell the two apart from it. -/
theorem updatePerson_missing_id_silent
    (table : List Person) (i : String) (u : UpdatePersonPatch)
    (hmiss : ∀ p ∈ table, p.id ≠ i) :
    (updatePerson table i u).1 = table ∧
    (updatePerson table i u).2 = () ∧
    (∀ (table' : List Person) (u' : UpdatePersonPatch),
      (updatePerson table' i u').2 = ()) := by
  refine ⟨?_, rfl, fun _ _ => rfl⟩
  unfold updatePerson
  simp only
  induction table with
  | nil => rfl
  | cons q qs ih =>
    have hq : q.id ≠ i := hmiss q (List.mem_cons_self q qs)
    simp only [List.map_cons, if_neg hq, List.cons.injEq, true_and]
    exact ih (fun p hp => hmiss p (List.mem_cons_of_mem q hp))

/-- Witness for C10 at a concrete table of one row: updating an absent id
changes nothing and returns unit. -/
theorem updatePerson_missing_id_silent_witness :
    (∀ p ∈ [Person.mk "a1" "John Doe" "john@example.com" "r1" false "t0" "t0"],
        p.id ≠ "zz") ∧
    ((updatePerson [⟨"a1", "John Doe", "john@example.com", "r1", false, "t0", "t0"⟩]
        "zz" { name := some "New Name", is_banned := some true }).1 =
      [⟨"a1", "John Doe", "john@example.com", "r1", false, "t0", "t0"⟩] ∧
    (updatePerson [⟨"a1", "John Doe", "john@example.com", "r1", false, "t0", "t0"⟩]
        "zz" { name := some "New Name", is_banned := some true }).2 = () ∧
    (∀ (table' : List Person) (u' : UpdatePersonPatch),
      (updatePerson table' "zz" u').2 = ())) :=
  ⟨by simp,
   updatePerson_missing_id_silent
     [⟨"a1", "John Doe", "john@example.com", "r1", false, "t0", "t0"⟩] "zz"
     { name := some "New Name", is_banned := some true } (by simp)⟩

end Shopinz
